import Mathlib

/-!
  # CinemaSync backend: realtime room core, shallow embedding

  A shallow embedding of the realtime synchronization core of the
  cinemasync backend: the socket entry point (`src/index.js`) together
  with the room document methods (`src/models/Room.js`) and the user
  document method it calls (`src/models/User.js`).

  Identifiers (Mongo ObjectIds, socket ids) are opaque, modelled as `Nat`.
  Timestamps (`new Date()` / `Date.now()`) are an abstract `Nat` supplied
  to each operation. JS numbers that hold playback times are modelled as
  `Int`. Nullable fields are `Option`. The durable store (Mongo) and the
  in-process maps are association lists inside one `ServerState`; each
  socket event handler is a function from state (plus its payload and the
  current time) to a new state paired with the list of messages it emits.

  The handlers are translated line by line from `io.on('connection', ...)`
  in `src/index.js`; the room methods from `roomSchema.methods` in
  `src/models/Room.js`. JS `Array.prototype.find` mutating one element and
  Mongo's positional `$` update both touch the *first* matching array
  element, embedded as `updateFirst`. Mongo's `$addToSet` adds a
  subdocument only when an identical one is absent, embedded as
  `addToSet` with equality on the whole record.
-/

/-! ## Identifiers and leaf records -/

abbrev UserId := Nat
abbrev SocketId := Nat
abbrev RoomId := Nat
abbrev Time := Nat

/-- One entry of `roomSchema`'s `participants` array
(`src/models/Room.js`). -/
structure Participant where
  user : UserId
  joinedAt : Time
  isHost : Bool
  isActive : Bool
  lastSeen : Time
deriving DecidableEq, Repr

/-- `roomSchema`'s `playbackState` subdocument. -/
structure PlaybackState where
  isPlaying : Bool
  currentTime : Int
  duration : Int
  lastUpdated : Time
deriving DecidableEq, Repr

/-- `roomSchema`'s `status` enum. -/
inductive RoomStatus
  | waiting
  | playing
  | paused
  | ended
deriving DecidableEq, Repr

/-- The fields of a room document that the realtime core reads or
writes (`src/models/Room.js`). -/
structure Room where
  host : UserId
  isPrivate : Bool
  password : Option String
  maxParticipants : Nat
  currentParticipants : Nat
  status : RoomStatus
  playbackState : PlaybackState
  participants : List Participant
deriving DecidableEq, Repr

/-- The fields of a user document the core touches
(`src/models/User.js`). -/
structure UserDoc where
  isOnline : Bool
  lastSeen : Time
deriving DecidableEq, Repr

/-- The per-connection fields the socket layer owns: `socket.userId` and
`socket.roomId`, both null until set (`src/index.js`, connection
handler). -/
structure Sock where
  userId : Option UserId
  roomId : Option RoomId
deriving DecidableEq, Repr

/-! ## Association-list helpers

The durable collections and the in-process maps are association lists;
`alistUpdate` rewrites the value at a key in place, leaving other keys
untouched. -/

def alistUpdate [BEq α] (k : α) (f : β → β) (l : List (α × β)) : List (α × β) :=
  l.map fun p => if p.1 == k then (p.1, f p.2) else p

/-- Rewrite the first list element satisfying `pred`, the embedding of a
JS `find`-then-mutate and of Mongo's positional `$` update, both of which
touch only the first match. -/
def updateFirst (pred : α → Bool) (f : α → α) : List α → List α
  | [] => []
  | x :: xs => if pred x then f x :: xs else x :: updateFirst pred f xs

/-! ## The connection registry (`userSockets` in `src/index.js`) -/

abbrev Registry := List (UserId × List SocketId)

/-- `addUserSocket(userId, socketId)`: idempotent insert of the socket id
into the identity's set. -/
def addUserSocket (userId : UserId) (socketId : SocketId) (reg : Registry) : Registry :=
  match reg.lookup userId with
  | some _ => alistUpdate userId (fun l => if l.contains socketId then l else l ++ [socketId]) reg
  | none => reg ++ [(userId, [socketId])]

/-- `removeUserSocket(userId, socketId)`: delete the socket id; when the
set becomes empty the identity's entry is removed entirely. -/
def removeUserSocket (userId : UserId) (socketId : SocketId) (reg : Registry) : Registry :=
  match reg.lookup userId with
  | none => reg
  | some l =>
      let l1 := l.filter fun s => s ≠ socketId
      if l1.isEmpty then reg.filter fun p => p.1 ≠ userId
      else alistUpdate userId (fun _ => l1) reg

/-- `getUserSocketIds(userId)`: the identity's socket ids, empty for an
unknown identity. -/
def getUserSocketIds (userId : UserId) (reg : Registry) : List SocketId :=
  (reg.lookup userId).getD []

/-! ## Room document methods (`src/models/Room.js`) -/

/-- A fresh participant subdocument as built by the join paths: active,
not host, both timestamps now. -/
def newParticipant (userId : UserId) (now : Time) : Participant :=
  { user := userId, joinedAt := now, isHost := false, isActive := true, lastSeen := now }

/-- The number of `isActive` participant records, the quantity every
recompute site persists into `currentParticipants`. -/
def activeCount (ps : List Participant) : Nat :=
  (ps.filter fun p => p.isActive).length

/-- `roomSchema.methods.canUserJoin(userId)`: `some reason` when the join
is rejected, `none` when it may proceed. The capacity check runs first;
the private-room check passes when any participant record (active or not)
exists for the identity. No other check is performed here. -/
def canUserJoin (room : Room) (userId : UserId) : Option String :=
  if room.maxParticipants ≤ room.currentParticipants then
    some "Room is full"
  else if room.isPrivate && !(room.participants.any fun p => p.user == userId) then
    some "Private room"
  else
    none

/-- `roomSchema.methods.removeParticipant(userId)`: deactivate the first
record for the identity and recompute the persisted count; a room with no
record for the identity is saved unchanged. -/
def removeParticipant (room : Room) (userId : UserId) (now : Time) : Room :=
  if room.participants.any (fun p => p.user == userId) then
    let ps := updateFirst (fun p => p.user == userId)
      (fun p => { p with isActive := false, lastSeen := now }) room.participants
    { room with participants := ps, currentParticipants := activeCount ps }
  else room

/-- A partial update to the playback subdocument, the argument object of
`updatePlaybackState`. -/
structure PlaybackUpdate where
  isPlaying : Option Bool := none
  currentTime : Option Int := none
  duration : Option Int := none
deriving DecidableEq, Repr

/-- `roomSchema.methods.updatePlaybackState(playbackData)`: spread the
update over the existing subdocument, stamp `lastUpdated`, and derive the
room `status` when `isPlaying` is part of the update. -/
def updatePlaybackState (room : Room) (u : PlaybackUpdate) (now : Time) : Room :=
  let ps : PlaybackState :=
    { isPlaying := u.isPlaying.getD room.playbackState.isPlaying
      currentTime := u.currentTime.getD room.playbackState.currentTime
      duration := u.duration.getD room.playbackState.duration
      lastUpdated := now }
  let st : RoomStatus :=
    match u.isPlaying with
    | some true => RoomStatus.playing
    | some false => RoomStatus.paused
    | none => room.status
  { room with playbackState := ps, status := st }

/-- `roomSchema.methods.addParticipant(userId)` (HTTP join/create path):
push a fresh record and recompute the count when none exists; otherwise
reactivate the first existing record without recomputing the count. -/
def addParticipant (room : Room) (userId : UserId) (now : Time) : Room :=
  if room.participants.any (fun p => p.user == userId) then
    let ps := updateFirst (fun p => p.user == userId)
      (fun p => { p with isActive := true, lastSeen := now }) room.participants
    { room with participants := ps }
  else
    let ps := room.participants ++ [newParticipant userId now]
    { room with participants := ps, currentParticipants := activeCount ps }

/-! ## Server state and emitted messages -/

/-- The state a running server holds: the durable `rooms` and `users`
collections, the live sockets (`io.sockets.sockets`), and the in-process
connection registry (`userSockets`). -/
structure ServerState where
  rooms : List (RoomId × Room)
  users : List (UserId × UserDoc)
  sockets : List (SocketId × Sock)
  userSockets : Registry
deriving DecidableEq, Repr

/-- The outbound messages the modelled handlers emit. Targeted relay
deliveries record the receiving socket, the event name, and the `from`
field of the payload; `setOffline` records the durable
`isOnline := false` write of the disconnect handler. -/
inductive OutEvent
  | error (sid : SocketId) (msg : String)
  | roomJoined (sid : SocketId) (roomId : RoomId)
  | participantsUpdated (roomId : RoomId) (count : Nat)
  | userJoined (roomId : RoomId) (userId : UserId) (count : Nat)
  | userLeft (roomId : RoomId) (userId : UserId)
  | videoPlay (roomId : RoomId) (currentTime : Int)
  | videoPause (roomId : RoomId)
  | videoSeek (roomId : RoomId) (time : Int)
  | deliver (sid : SocketId) (event : String) (fromUser : UserId)
  | setOffline (userId : UserId)
deriving DecidableEq, Repr

/-! ## Socket event handlers (`src/index.js`)

Each handler takes the server state, the socket the event arrived on, the
payload fields it reads, and the current time, and returns the state after
the handler ran to completion together with the messages it emitted.
A socket id absent from `sockets` stands for no such connection: the
handler is never invoked, embedded as a no-op. -/

/-- The `join-room` handler (`src/index.js`). Mirrored control flow:
not authenticated → `error`; room not found → `error`; `canUserJoin`
rejection → `error` with its reason. Otherwise the handler overwrites
`socket.roomId` (no leave of a previously bound room), upserts the
participant record — `$addToSet` of a fresh subdocument when the read
found no record for the identity, positional `$set` of
`isActive`/`lastSeen` on the first matching record otherwise — then
recomputes and persists `currentParticipants` and emits `room-joined`,
`participants-updated` and `user-joined`. -/
def joinRoom (s : ServerState) (sid : SocketId) (roomId : RoomId) (now : Time) :
    ServerState × List OutEvent :=
  match s.sockets.lookup sid with
  | none => (s, [])
  | some sock =>
    match sock.userId with
    | none => (s, [.error sid "Not authenticated"])
    | some uid =>
      match s.rooms.lookup roomId with
      | none => (s, [.error sid "Room not found"])
      | some room =>
        match canUserJoin room uid with
        | some reason => (s, [.error sid reason])
        | none =>
          let sockets1 := alistUpdate sid (fun sk => { sk with roomId := some roomId }) s.sockets
          let room1 :=
            if room.participants.any (fun p => p.user == uid) then
              let ps := updateFirst (fun p => p.user == uid)
                (fun p => { p with isActive := true, lastSeen := now }) room.participants
              { room with participants := ps }
            else
              { room with participants := room.participants ++ [newParticipant uid now] }
          let active := activeCount room1.participants
          let room2 := { room1 with currentParticipants := active }
          ({ s with sockets := sockets1, rooms := alistUpdate roomId (fun _ => room2) s.rooms },
           [.roomJoined sid roomId, .participantsUpdated roomId active,
            .userJoined roomId uid active])

/-- The `leave-room` handler: no-op unless the socket is both
authenticated and bound to a room; deactivates the participant record via
`removeParticipant` when the room still exists, emits `user-left`, and in
every case clears `socket.roomId`. -/
def leaveRoom (s : ServerState) (sid : SocketId) (now : Time) :
    ServerState × List OutEvent :=
  match s.sockets.lookup sid with
  | none => (s, [])
  | some sock =>
    match sock.roomId, sock.userId with
    | some rid, some uid =>
      let upd :=
        match s.rooms.lookup rid with
        | none => (s.rooms, ([] : List OutEvent))
        | some room =>
            (alistUpdate rid (fun _ => removeParticipant room uid now) s.rooms,
             [.userLeft rid uid])
      ({ s with rooms := upd.1,
                sockets := alistUpdate sid (fun sk => { sk with roomId := none }) s.sockets },
       upd.2)
    | _, _ => (s, [])

/-- The `video-play` handler: requires a bound room and identity, an
existing room, and `room.host === socket.userId`; otherwise returns with
no change and no emission. On success the payload's numeric `currentTime`
(or the stored one when absent) is persisted with `isPlaying := true` and
broadcast. -/
def videoPlayHandler (s : ServerState) (sid : SocketId) (dataCurrentTime : Option Int)
    (now : Time) : ServerState × List OutEvent :=
  match s.sockets.lookup sid with
  | none => (s, [])
  | some sock =>
    match sock.roomId, sock.userId with
    | some rid, some uid =>
      match s.rooms.lookup rid with
      | none => (s, [])
      | some room =>
        if room.host == uid then
          let t := dataCurrentTime.getD room.playbackState.currentTime
          let room1 := updatePlaybackState room { isPlaying := some true, currentTime := some t } now
          ({ s with rooms := alistUpdate rid (fun _ => room1) s.rooms }, [.videoPlay rid t])
        else (s, [])
    | _, _ => (s, [])

/-- The `video-pause` handler: same gate as `video-play`; persists
`isPlaying := false` and broadcasts `video-pause`. -/
def videoPauseHandler (s : ServerState) (sid : SocketId) (now : Time) :
    ServerState × List OutEvent :=
  match s.sockets.lookup sid with
  | none => (s, [])
  | some sock =>
    match sock.roomId, sock.userId with
    | some rid, some uid =>
      match s.rooms.lookup rid with
      | none => (s, [])
      | some room =>
        if room.host == uid then
          let room1 := updatePlaybackState room { isPlaying := some false } now
          ({ s with rooms := alistUpdate rid (fun _ => room1) s.rooms }, [.videoPause rid])
        else (s, [])
    | _, _ => (s, [])

/-- The `video-seek` handler: same gate; the seek time is the payload's
`time` when it is a number and `0` otherwise, persisted as
`currentTime` and broadcast. -/
def videoSeekHandler (s : ServerState) (sid : SocketId) (dataTime : Option Int)
    (now : Time) : ServerState × List OutEvent :=
  match s.sockets.lookup sid with
  | none => (s, [])
  | some sock =>
    match sock.roomId, sock.userId with
    | some rid, some uid =>
      match s.rooms.lookup rid with
      | none => (s, [])
      | some room =>
        if room.host == uid then
          let t := dataTime.getD 0
          let room1 := updatePlaybackState room { currentTime := some t } now
          ({ s with rooms := alistUpdate rid (fun _ => room1) s.rooms }, [.videoSeek rid t])
        else (s, [])
    | _, _ => (s, [])

/-- Whether a socket id names a live connection bound to the given room —
the body of the loop in `emitToUserInSameRoom`:
`io.sockets.sockets.get(sid)` exists and its `roomId` equals the
sender's. -/
def liveInRoom (s : ServerState) (rid : RoomId) (tid : SocketId) : Bool :=
  match s.sockets.lookup tid with
  | some sk => sk.roomId == some rid
  | none => false

/-- `emitToUserInSameRoom(userId, roomId, event, payload)`: emit the
event to every live socket of the target identity whose bound room equals
`roomId`, with the payload's `from` field set to the sender; returns the
number of deliveries. -/
def emitToUserInSameRoom (s : ServerState) (targetUser : UserId) (rid : RoomId)
    (event : String) (fromUser : UserId) : Nat × List OutEvent :=
  let targets := (getUserSocketIds targetUser s.userSockets).filter (liveInRoom s rid)
  (targets.length, targets.map fun tid => .deliver tid event fromUser)

/-- The shared body of the `offer`, `answer` and `ice-candidate`
handlers: drop silently unless the sender is authenticated and bound to a
room, otherwise relay via `emitToUserInSameRoom` and bind the returned
delivery count (`some n`; `none` models the early return). -/
def relayHandler (s : ServerState) (sid : SocketId) (targetUser : UserId)
    (event : String) : Option Nat × List OutEvent :=
  match s.sockets.lookup sid with
  | none => (none, [])
  | some sock =>
    match sock.userId, sock.roomId with
    | some uid, some rid =>
      let r := emitToUserInSameRoom s targetUser rid event uid
      (some r.1, r.2)
    | _, _ => (none, [])

/-- The `offer` handler relays the event name `offer`. -/
def offerHandler (s : ServerState) (sid : SocketId) (targetUser : UserId) :
    Option Nat × List OutEvent :=
  relayHandler s sid targetUser "offer"

/-- The `answer` handler relays the event name `answer`. -/
def answerHandler (s : ServerState) (sid : SocketId) (targetUser : UserId) :
    Option Nat × List OutEvent :=
  relayHandler s sid targetUser "answer"

/-- The `ice-candidate` handler relays the event name `ice-candidate`. -/
def iceCandidateHandler (s : ServerState) (sid : SocketId) (targetUser : UserId) :
    Option Nat × List OutEvent :=
  relayHandler s sid targetUser "ice-candidate"

/-- The `disconnect` handler. First the registry branch: for an
authenticated socket, remove it from `userSockets`; when no socket ids
remain for the identity, persist `isOnline := false` with a fresh
`lastSeen` (the `setOffline` message records this write). Then the room
branch: when the socket was bound to a room that exists, deactivate the
identity's participant record via `removeParticipant` — unconditionally,
with no check for other live connections of the identity — and emit
`user-left`. Finally the socket itself is gone. -/
def disconnectHandler (s : ServerState) (sid : SocketId) (now : Time) :
    ServerState × List OutEvent :=
  match s.sockets.lookup sid with
  | none => (s, [])
  | some sock =>
    let regPart :=
      match sock.userId with
      | none => (s.users, s.userSockets, ([] : List OutEvent))
      | some uid =>
        let reg1 := removeUserSocket uid sid s.userSockets
        if (getUserSocketIds uid reg1).isEmpty then
          (alistUpdate uid (fun u => { u with isOnline := false, lastSeen := now }) s.users,
           reg1, [.setOffline uid])
        else (s.users, reg1, [])
    let roomPart :=
      match sock.roomId, sock.userId with
      | some rid, some uid =>
        match s.rooms.lookup rid with
        | none => (s.rooms, ([] : List OutEvent))
        | some room =>
            (alistUpdate rid (fun _ => removeParticipant room uid now) s.rooms,
             [.userLeft rid uid])
      | _, _ => (s.rooms, [])
    ({ rooms := roomPart.1, users := regPart.1,
       sockets := s.sockets.filter (fun p => p.1 ≠ sid), userSockets := regPart.2.1 },
     regPart.2.2 ++ roomPart.2)

/-! ## Database write granularity of the join upsert

The join handler is not one atomic step against the store: it first reads
the room (computing whether a record for the identity exists) and only
then issues its `updateOne`. Under concurrent joins these steps
interleave. `addToSet` is Mongo's `$addToSet`: the subdocument is
appended only when an *identical* subdocument (all fields equal) is
already absent. `setActiveFirst` is the positional
`$set {participants.$.isActive, participants.$.lastSeen}` keyed on
`participants.user`, which rewrites the first matching array element. -/

def addToSet (roster : List Participant) (p : Participant) : List Participant :=
  if roster.contains p then roster else roster ++ [p]

def setActiveFirst (roster : List Participant) (userId : UserId) (now : Time) :
    List Participant :=
  updateFirst (fun p => p.user == userId)
    (fun p => { p with isActive := true, lastSeen := now }) roster

/-- The write step of one in-flight join: `sawExisting` is what that
join's earlier read of the roster observed (`room.participants.find`),
`now` its timestamp. `$addToSet` of a fresh subdocument when the read saw
no record, positional `$set` otherwise — exactly the two branches of the
handler's `updateOne`. -/
def joinWriteStep (roster : List Participant) (userId : UserId) (sawExisting : Bool)
    (now : Time) : List Participant :=
  if sawExisting then setActiveFirst roster userId now
  else addToSet roster (newParticipant userId now)

/-- What one join's read step observes: whether the roster holds a record
for the identity (`room.participants.find(...)` non-null). -/
def joinReadStep (roster : List Participant) (userId : UserId) : Bool :=
  roster.any fun p => p.user == userId

/-! ## The HTTP join path (`src/controllers/roomController.js`) -/

/-- JS truthiness of the stored password: `null` and the empty string are
falsy. -/
def strTruthy : Option String → Bool
  | none => false
  | some s => !s.isEmpty

/-- Result of the HTTP `joinRoom` controller. -/
inductive RestJoinResult
  | invalidPassword
  | denied (reason : String)
  | joined (room : Room)
deriving DecidableEq, Repr

/-- The HTTP `joinRoom` controller (`roomController.js`): reject with the
invalid-password error only when the room is private *and* a truthy
password is stored *and* it differs from the supplied one; then run
`canUserJoin`; then `addParticipant`. -/
def restJoinRoom (room : Room) (userId : UserId) (supplied : Option String)
    (now : Time) : RestJoinResult :=
  if room.isPrivate && strTruthy room.password && !(room.password == supplied) then
    .invalidPassword
  else
    match canUserJoin room userId with
    | some reason => .denied reason
    | none => .joined (addParticipant room userId now)

/-! ## Serialized operation sequences -/

/-- One completed socket-lifecycle operation on the server, at the
granularity at which the count-recompute claim speaks: a `join-room`, a
`leave-room`, or a `disconnect`. -/
inductive Op
  | join (sid : SocketId) (roomId : RoomId) (now : Time)
  | leave (sid : SocketId) (now : Time)
  | disc (sid : SocketId) (now : Time)
deriving DecidableEq, Repr

/-- Apply one completed operation, discarding emissions. -/
def applyOp (s : ServerState) : Op → ServerState
  | .join sid rid now => (joinRoom s sid rid now).1
  | .leave sid now => (leaveRoom s sid now).1
  | .disc sid now => (disconnectHandler s sid now).1

/-- The derived-count invariant for one room document: the persisted
`currentParticipants` equals the number of `isActive` participant
records. -/
def roomCountOk (room : Room) : Bool :=
  room.currentParticipants == activeCount room.participants

/-- The derived-count invariant over every room in the store. -/
def allRoomsOk (s : ServerState) : Bool :=
  s.rooms.all fun p => roomCountOk p.2

/-- The success gate shared by the three playback handlers: the socket
exists, is bound to a room and an identity, the room exists, and its host
is that identity. -/
def senderIsHost (s : ServerState) (sid : SocketId) : Bool :=
  match s.sockets.lookup sid with
  | none => false
  | some sock =>
    match sock.roomId, sock.userId with
    | some rid, some uid =>
      match s.rooms.lookup rid with
      | none => false
      | some room => room.host == uid
    | _, _ => false

/-! ## Concrete fixtures

Small concrete server states used to evaluate the model: a capacity-2
room whose host has joined, an open second room, a password-protected
room, and states exercising two tabs, two rooms, relay targets, and a
non-zero playback clock. -/

def pbZero : PlaybackState :=
  { isPlaying := false, currentTime := 0, duration := 0, lastUpdated := 0 }

def hostRecord : Participant :=
  { user := 1, joinedAt := 0, isHost := false, isActive := true, lastSeen := 0 }

def roomCap2 : Room :=
  { host := 1, isPrivate := false, password := none, maxParticipants := 2,
    currentParticipants := 1, status := .waiting, playbackState := pbZero,
    participants := [hostRecord] }

def roomOpen : Room :=
  { host := 2, isPrivate := false, password := none, maxParticipants := 50,
    currentParticipants := 0, status := .waiting, playbackState := pbZero,
    participants := [] }

def roomPw : Room :=
  { host := 1, isPrivate := false, password := some "secret", maxParticipants := 10,
    currentParticipants := 1, status := .waiting, playbackState := pbZero,
    participants := [hostRecord] }

def stateC9 : ServerState :=
  { rooms := [(100, roomCap2)], users := [],
    sockets := [(10, ⟨some 1, some 100⟩), (11, ⟨some 2, none⟩), (12, ⟨some 3, none⟩)],
    userSockets := [] }

def stateTwoTabs : ServerState :=
  { rooms := [(100, roomCap2)], users := [(1, ⟨true, 0⟩)],
    sockets := [(10, ⟨some 1, some 100⟩), (11, ⟨some 1, some 100⟩)],
    userSockets := [(1, [10, 11])] }

def stateTwoRooms : ServerState :=
  { rooms := [(100, roomCap2), (200, roomOpen)], users := [],
    sockets := [(10, ⟨some 1, some 100⟩)], userSockets := [(1, [10])] }

def statePw : ServerState :=
  { rooms := [(100, roomPw)], users := [],
    sockets := [(11, ⟨some 2, none⟩)], userSockets := [] }

def stateRelay : ServerState :=
  { rooms := [(100, roomCap2), (200, roomOpen)], users := [],
    sockets := [(10, ⟨some 1, some 100⟩), (20, ⟨some 2, some 100⟩), (21, ⟨some 2, some 200⟩)],
    userSockets := [(1, [10]), (2, [20, 21, 22])] }

def stateSeek : ServerState :=
  { rooms := [(100, { roomCap2 with playbackState := { pbZero with currentTime := 77 } })],
    users := [],
    sockets := [(10, ⟨some 1, some 100⟩), (11, ⟨some 2, some 100⟩)],
    userSockets := [(1, [10]), (2, [11])] }

/-- The roster produced by two in-flight joins of identity 1 whose reads
both ran against the initial empty roster before either write
(timestamps 5 and 6). -/
def raceRoster : List Participant :=
  joinWriteStep (joinWriteStep [] 1 (joinReadStep [] 1) 5) 1 (joinReadStep [] 1) 6

/-- The roster produced by the same two joins run one after the other:
the second read observes the first write. -/
def serialRoster : List Participant :=
  joinWriteStep (joinWriteStep [] 1 (joinReadStep [] 1) 5) 1
    (joinReadStep (joinWriteStep [] 1 (joinReadStep [] 1) 5) 1) 6

/-! ## Association-list lemmas -/

theorem alistUpdate_lookup_self [BEq α] [LawfulBEq α] (k : α) (f : β → β)
    (l : List (α × β)) : (alistUpdate k f l).lookup k = (l.lookup k).map f := by
  induction l with
  | nil => rfl
  | cons p t ih =>
    obtain ⟨a, b⟩ := p
    by_cases h : a = k
    · subst h
      simp [alistUpdate, List.lookup_cons]
    · have h1 : (a == k) = false := beq_false_of_ne h
      have h2 : (k == a) = false := beq_false_of_ne (Ne.symm h)
      simpa [alistUpdate, List.lookup_cons, h1, h2] using ih

theorem alistUpdate_lookup_ne [BEq α] [LawfulBEq α] {k k2 : α} (f : β → β)
    (l : List (α × β)) (h : k2 ≠ k) :
    (alistUpdate k f l).lookup k2 = l.lookup k2 := by
  induction l with
  | nil => rfl
  | cons p t ih =>
    obtain ⟨a, b⟩ := p
    by_cases ha : a = k
    · subst ha
      have h2 : (k2 == a) = false := beq_false_of_ne h
      simpa [alistUpdate, List.lookup_cons, h2] using ih
    · have h1 : (a == k) = false := beq_false_of_ne ha
      by_cases hk2 : k2 = a
      · subst hk2
        simp [alistUpdate, List.lookup_cons, h1]
      · have h2 : (k2 == a) = false := beq_false_of_ne hk2
        simpa [alistUpdate, List.lookup_cons, h1, h2] using ih

theorem lookup_mem [BEq α] [LawfulBEq α] {l : List (α × β)} {k : α} {v : β}
    (h : l.lookup k = some v) : (k, v) ∈ l := by
  induction l with
  | nil => simp at h
  | cons p t ih =>
    obtain ⟨a, b⟩ := p
    rw [List.lookup_cons] at h
    by_cases hak : k = a
    · subst hak
      simp at h
      simp [h]
    · have h2 : (k == a) = false := beq_false_of_ne hak
      rw [h2] at h
      exact List.mem_cons_of_mem _ (ih h)

theorem all_alistUpdate_const [BEq α] {P : β → Bool} {l : List (α × β)} {k : α} {r : β}
    (hl : (l.all fun p => P p.2) = true) (hr : P r = true) :
    ((alistUpdate k (fun _ => r) l).all fun p => P p.2) = true := by
  rw [List.all_eq_true] at hl ⊢
  intro p hp
  simp only [alistUpdate, List.mem_map] at hp
  obtain ⟨q, hq, rfl⟩ := hp
  cases hk : q.1 == k
  · simpa [hk] using hl q hq
  · simpa [hk] using hr

/-! ## Count-invariant preservation -/

theorem roomCountOk_removeParticipant {room : Room} (userId : UserId) (now : Time)
    (h : roomCountOk room = true) :
    roomCountOk (removeParticipant room userId now) = true := by
  unfold removeParticipant
  by_cases hf : room.participants.any (fun p => p.user == userId)
  · simp [hf, roomCountOk]
  · simpa [hf] using h

theorem joinRoom_allRoomsOk (s : ServerState) (sid : SocketId) (rid : RoomId) (now : Time)
    (h : allRoomsOk s = true) : allRoomsOk (joinRoom s sid rid now).1 = true := by
  unfold joinRoom
  split
  · exact h
  · split
    · exact h
    · split
      · exact h
      · split
        · exact h
        · simp only [allRoomsOk] at h ⊢
          exact all_alistUpdate_const h (by simp [roomCountOk])

theorem leaveRoom_allRoomsOk (s : ServerState) (sid : SocketId) (now : Time)
    (h : allRoomsOk s = true) : allRoomsOk (leaveRoom s sid now).1 = true := by
  unfold leaveRoom
  split
  · exact h
  · split
    · split
      · exact h
      · next room heq =>
        simp only [allRoomsOk] at h ⊢
        have hro : roomCountOk room = true := by
          rw [List.all_eq_true] at h
          exact h (_, room) (lookup_mem heq)
        exact all_alistUpdate_const h (roomCountOk_removeParticipant _ now hro)
    · exact h

theorem disconnect_allRoomsOk (s : ServerState) (sid : SocketId) (now : Time)
    (h : allRoomsOk s = true) : allRoomsOk (disconnectHandler s sid now).1 = true := by
  unfold disconnectHandler
  split
  · exact h
  · simp only [allRoomsOk] at h ⊢
    split
    · split
      · exact h
      · next room heq =>
        rw [List.all_eq_true] at h
        have hro : roomCountOk room = true := h (_, room) (lookup_mem heq)
        rw [← List.all_eq_true] at h
        exact all_alistUpdate_const h (roomCountOk_removeParticipant _ now hro)
    · exact h

/-! ## Relay, registry and deactivation lemmas -/

theorem liveInRoom_true_iff (s : ServerState) (rid : RoomId) (tid : SocketId) :
    liveInRoom s rid tid = true ↔
      ∃ sk : Sock, s.sockets.lookup tid = some sk ∧ sk.roomId = some rid := by
  unfold liveInRoom
  cases h : s.sockets.lookup tid <;> simp [h]

theorem mem_getUserSocketIds_remove {reg : Registry} {uid : UserId} {sid sid2 : SocketId}
    (hne : sid2 ≠ sid) (hm : sid2 ∈ getUserSocketIds uid reg) :
    sid2 ∈ getUserSocketIds uid (removeUserSocket uid sid reg) := by
  unfold getUserSocketIds removeUserSocket at *
  cases h : reg.lookup uid with
  | none => rw [h] at hm; simp at hm
  | some l =>
    rw [h] at hm
    simp at hm
    have hmem : sid2 ∈ l.filter fun s => s ≠ sid := by
      refine List.mem_filter.mpr ⟨hm, ?_⟩
      simp [hne]
    cases hb : (l.filter fun s => s ≠ sid).isEmpty with
    | true =>
      rw [List.isEmpty_iff] at hb
      rw [hb] at hmem
      simp at hmem
    | false =>
      simp only [hb]
      simp [alistUpdate_lookup_self, h]
      exact ⟨hm, hne⟩

theorem getUserSocketIds_remove_ne_nil {reg : Registry} {uid : UserId} {sid sid2 : SocketId}
    (hne : sid2 ≠ sid) (hm : sid2 ∈ getUserSocketIds uid reg) :
    (getUserSocketIds uid (removeUserSocket uid sid reg)).isEmpty = false := by
  have hmem := mem_getUserSocketIds_remove hne hm
  cases hgoal : getUserSocketIds uid (removeUserSocket uid sid reg) with
  | nil => rw [hgoal] at hmem; simp at hmem
  | cons a t => rfl

theorem updateFirst_deactivate_any (l : List Participant) (x : UserId) (now : Time)
    (h : (l.filter fun p => p.user == x).length ≤ 1) :
    ((updateFirst (fun p => p.user == x)
        (fun p => { p with isActive := false, lastSeen := now }) l).any
      fun p => p.user == x && p.isActive) = false := by
  induction l with
  | nil => rfl
  | cons q t ih =>
    cases hq : q.user == x with
    | true =>
      have hstep : updateFirst (fun p => p.user == x)
          (fun p => { p with isActive := false, lastSeen := now }) (q :: t) =
          { q with isActive := false, lastSeen := now } :: t := by
        simp [updateFirst, hq]
      have hfil : List.filter (fun p => p.user == x) (q :: t) =
          q :: List.filter (fun p => p.user == x) t := by
        simp [List.filter_cons, hq]
      rw [hfil, List.length_cons] at h
      have ht0 : (t.filter fun p => p.user == x).length = 0 := by omega
      rw [List.length_eq_zero] at ht0
      rw [hstep, List.any_cons, Bool.or_eq_false_iff]
      constructor
      · simp
      · rw [List.any_eq_false]
        intro p hp
        cases hx : p.user == x with
        | true =>
          have : p ∈ t.filter fun p => p.user == x := List.mem_filter.mpr ⟨hp, hx⟩
          rw [ht0] at this
          simp at this
        | false => simp [hx]
    | false =>
      have hstep : updateFirst (fun p => p.user == x)
          (fun p => { p with isActive := false, lastSeen := now }) (q :: t) =
          q :: updateFirst (fun p => p.user == x)
            (fun p => { p with isActive := false, lastSeen := now }) t := by
        simp [updateFirst, hq]
      have hfil : List.filter (fun p => p.user == x) (q :: t) =
          List.filter (fun p => p.user == x) t := by
        simp [List.filter_cons, hq]
      rw [hfil] at h
      rw [hstep, List.any_cons, Bool.or_eq_false_iff]
      exact ⟨by simp [hq], ih h⟩

theorem removeParticipant_any_active_false (room : Room) (x : UserId) (now : Time)
    (h : (room.participants.filter fun p => p.user == x).length ≤ 1) :
    ((removeParticipant room x now).participants.any
      fun p => p.user == x && p.isActive) = false := by
  unfold removeParticipant
  by_cases hf : (room.participants.any fun p => p.user == x) = true
  · simp only [hf, if_true]
    exact updateFirst_deactivate_any room.participants x now h
  · rw [if_neg hf]
    have hf2 : (room.participants.any fun p => p.user == x) = false := by
      simpa using hf
    rw [List.any_eq_false] at hf2 ⊢
    intro p hp
    have := hf2 p hp
    simp at this
    simp [this]

/-! ## Claim theorems -/

/-- Claim C1: the spec demands that concurrent joins by the same identity
upsert into at most one participant record per (room, identity) pair, and
the join handler's own comment claims its update is race-free. Evaluating
the handler's actual read/write steps refutes this: when two joins by
identity 1 both read the roster before either write (`raceRoster`,
timestamps 5 and 6), the `$addToSet` upserts append two records for the
same identity, because the fresh subdocuments differ in their timestamps;
the serialized schedule (`serialRoster`) produces the single record the
spec and the comment promise. -/
theorem claim_c1_join_race :
    (raceRoster.filter fun p => p.user == 1).length = 2 ∧
    (serialRoster.filter fun p => p.user == 1).length = 1 ∧
    raceRoster = [newParticipant 1 5, newParticipant 1 6] := by decide

/-- Claim C2: after every completed `join-room`, `leave-room` or
`disconnect` operation — any serialized sequence of them, from any state
whose rooms satisfy the invariant — every room's persisted
`currentParticipants` equals the number of its participant records with
`isActive = true`. -/
theorem claim_c2_count_invariant (s : ServerState) (ops : List Op)
    (h : allRoomsOk s = true) : allRoomsOk (ops.foldl applyOp s) = true := by
  induction ops generalizing s with
  | nil => exact h
  | cons op t ih =>
    refine ih _ ?_
    cases op with
    | join sid rid now => exact joinRoom_allRoomsOk s sid rid now h
    | leave sid now => exact leaveRoom_allRoomsOk s sid now h
    | disc sid now => exact disconnect_allRoomsOk s sid now h

theorem claim_c2_count_invariant_witness :
    allRoomsOk stateC9 = true ∧
    allRoomsOk ([Op.join 11 100 1, Op.leave 10 2, Op.disc 11 3].foldl applyOp stateC9) = true :=
  ⟨by decide, claim_c2_count_invariant stateC9 [Op.join 11 100 1, Op.leave 10 2, Op.disc 11 3] (by decide)⟩

/-- Claim C9: `canUserJoin` rejects with the room-full reason exactly when
the persisted active count has reached capacity, and the capacity-2
scenario plays out as specified: with host 1 joined (count 1), a join by
user 2 succeeds (count 2), a join by user 3 fails with the room-full
error leaving the state unchanged, after the host leaves (count 1) the
retry by user 3 succeeds (count 2). -/
theorem claim_c9_room_full :
    (∀ (room : Room) (uid : UserId),
      canUserJoin room uid = some "Room is full" ↔
        room.maxParticipants ≤ room.currentParticipants) ∧
    (((joinRoom stateC9 11 100 1).1.rooms.lookup 100).map
        (fun r => r.currentParticipants) = some 2 ∧
      joinRoom (joinRoom stateC9 11 100 1).1 12 100 2 =
        ((joinRoom stateC9 11 100 1).1, [OutEvent.error 12 "Room is full"]) ∧
      ((leaveRoom (joinRoom stateC9 11 100 1).1 10 3).1.rooms.lookup 100).map
        (fun r => r.currentParticipants) = some 1 ∧
      (joinRoom (leaveRoom (joinRoom stateC9 11 100 1).1 10 3).1 12 100 4).2 =
        [OutEvent.roomJoined 12 100, OutEvent.participantsUpdated 100 2,
          OutEvent.userJoined 100 3 2] ∧
      ((joinRoom (leaveRoom (joinRoom stateC9 11 100 1).1 10 3).1 12 100 4).1.rooms.lookup 100).map
        (fun r => r.currentParticipants) = some 2) := by
  constructor
  · intro room uid
    unfold canUserJoin
    by_cases hc : room.maxParticipants ≤ room.currentParticipants
    · simp [hc]
    · rw [if_neg hc]
      constructor
      · intro hcontra
        split at hcontra
        · simp at hcontra
        · simp at hcontra
      · intro hcontra
        exact absurd hcontra hc
  · decide

theorem videoPlay_nonhost_noop (s : ServerState) (sid : SocketId)
    (d : Option Int) (now : Time) (h : senderIsHost s sid = false) :
    videoPlayHandler s sid d now = (s, []) := by
  unfold videoPlayHandler
  cases hs : s.sockets.lookup sid with
  | none => rfl
  | some sock =>
    cases hr : sock.roomId with
    | none => simp [hr]
    | some rid =>
      cases hu : sock.userId with
      | none => simp [hr, hu]
      | some uid =>
        cases hroom : s.rooms.lookup rid with
        | none => simp [hr, hu, hroom]
        | some room =>
          have hb : (room.host == uid) = false := by
            simp only [senderIsHost, hs, hr, hu, hroom] at h
            exact h
          simp [hr, hu, hroom, hb]

theorem videoPause_nonhost_noop (s : ServerState) (sid : SocketId)
    (now : Time) (h : senderIsHost s sid = false) :
    videoPauseHandler s sid now = (s, []) := by
  unfold videoPauseHandler
  cases hs : s.sockets.lookup sid with
  | none => rfl
  | some sock =>
    cases hr : sock.roomId with
    | none => simp [hr]
    | some rid =>
      cases hu : sock.userId with
      | none => simp [hr, hu]
      | some uid =>
        cases hroom : s.rooms.lookup rid with
        | none => simp [hr, hu, hroom]
        | some room =>
          have hb : (room.host == uid) = false := by
            simp only [senderIsHost, hs, hr, hu, hroom] at h
            exact h
          simp [hr, hu, hroom, hb]

theorem videoSeek_nonhost_noop (s : ServerState) (sid : SocketId)
    (d : Option Int) (now : Time) (h : senderIsHost s sid = false) :
    videoSeekHandler s sid d now = (s, []) := by
  unfold videoSeekHandler
  cases hs : s.sockets.lookup sid with
  | none => rfl
  | some sock =>
    cases hr : sock.roomId with
    | none => simp [hr]
    | some rid =>
      cases hu : sock.userId with
      | none => simp [hr, hu]
      | some uid =>
        cases hroom : s.rooms.lookup rid with
        | none => simp [hr, hu, hroom]
        | some room =>
          have hb : (room.host == uid) = false := by
            simp only [senderIsHost, hs, hr, hu, hroom] at h
            exact h
          simp [hr, hu, hroom, hb]

/-- Claim C3: a `video-play`, `video-pause` or `video-seek` request from
a connection whose bound identity is not the room's host identity (or
that is unauthenticated, unbound, or names a missing room) leaves the
entire server state — in particular the room's persisted playback
state — unchanged and broadcasts nothing. -/
theorem claim_c3_nonhost_dropped (s : ServerState) (sid : SocketId)
    (playData seekData : Option Int) (now : Time)
    (h : senderIsHost s sid = false) :
    videoPlayHandler s sid playData now = (s, []) ∧
    videoPauseHandler s sid now = (s, []) ∧
    videoSeekHandler s sid seekData now = (s, []) :=
  ⟨videoPlay_nonhost_noop s sid playData now h,
   videoPause_nonhost_noop s sid now h,
   videoSeek_nonhost_noop s sid seekData now h⟩

theorem claim_c3_nonhost_dropped_witness :
    senderIsHost stateSeek 11 = false ∧
    (videoPlayHandler stateSeek 11 (some 5) 9 = (stateSeek, []) ∧
      videoPauseHandler stateSeek 11 9 = (stateSeek, []) ∧
      videoSeekHandler stateSeek 11 (some 7) 9 = (stateSeek, [])) :=
  ⟨by decide, claim_c3_nonhost_dropped stateSeek 11 (some 5) (some 7) 9 (by decide)⟩

/-- Claim C4: a relayed `offer` / `answer` / `ice-candidate` (the three
handlers share `relayHandler`, specialized only by the event name) from
an authenticated, room-joined sender is delivered exactly to the target
identity's live connections whose bound room equals the sender's bound
room; each delivered payload carries `from` equal to the sender identity,
and the delivery count (possibly zero, which is not an error) is the
value the handler binds. -/
theorem claim_c4_relay_delivery (s : ServerState) (sid : SocketId)
    (target : UserId) (ev : String) (sock : Sock) (uid : UserId) (rid : RoomId)
    (hs : s.sockets.lookup sid = some sock)
    (hu : sock.userId = some uid) (hr : sock.roomId = some rid) :
    relayHandler s sid target ev =
      (some ((getUserSocketIds target s.userSockets).filter (liveInRoom s rid)).length,
        ((getUserSocketIds target s.userSockets).filter (liveInRoom s rid)).map
          fun tid => OutEvent.deliver tid ev uid) ∧
    (∀ tid : SocketId,
        OutEvent.deliver tid ev uid ∈ (relayHandler s sid target ev).2 ↔
          tid ∈ getUserSocketIds target s.userSockets ∧
            ∃ sk : Sock, s.sockets.lookup tid = some sk ∧ sk.roomId = some rid) ∧
    (relayHandler s sid target ev).1 = some (relayHandler s sid target ev).2.length ∧
    (∀ e ∈ (relayHandler s sid target ev).2,
        ∃ tid : SocketId, e = OutEvent.deliver tid ev uid) := by
  have h1 : relayHandler s sid target ev =
      (some ((getUserSocketIds target s.userSockets).filter (liveInRoom s rid)).length,
        ((getUserSocketIds target s.userSockets).filter (liveInRoom s rid)).map
          fun tid => OutEvent.deliver tid ev uid) := by
    simp [relayHandler, hs, hu, hr, emitToUserInSameRoom]
  refine ⟨h1, ?_, ?_, ?_⟩
  · intro tid
    rw [h1]
    simp only [List.mem_map, List.mem_filter]
    constructor
    · rintro ⟨a, ⟨ha, hlive⟩, heq⟩
      have hat : a = tid := by
        have := congrArg (fun e => match e with | OutEvent.deliver t _ _ => t | _ => 0) heq
        simpa using this
      subst hat
      exact ⟨ha, (liveInRoom_true_iff s rid a).mp hlive⟩
    · rintro ⟨ha, hlive⟩
      exact ⟨tid, ⟨ha, (liveInRoom_true_iff s rid tid).mpr hlive⟩, rfl⟩
  · rw [h1]
    simp
  · rw [h1]
    intro e he
    simp only [List.mem_map] at he
    obtain ⟨a, _, rfl⟩ := he
    exact ⟨a, rfl⟩

theorem claim_c4_relay_delivery_witness :
    stateRelay.sockets.lookup 10 = some ⟨some 1, some 100⟩ ∧
    (relayHandler stateRelay 10 2 "offer" =
        (some ((getUserSocketIds 2 stateRelay.userSockets).filter
            (liveInRoom stateRelay 100)).length,
          ((getUserSocketIds 2 stateRelay.userSockets).filter
            (liveInRoom stateRelay 100)).map
            fun tid => OutEvent.deliver tid "offer" 1) ∧
      (∀ tid : SocketId,
          OutEvent.deliver tid "offer" 1 ∈ (relayHandler stateRelay 10 2 "offer").2 ↔
            tid ∈ getUserSocketIds 2 stateRelay.userSockets ∧
              ∃ sk : Sock, stateRelay.sockets.lookup tid = some sk ∧ sk.roomId = some 100) ∧
      (relayHandler stateRelay 10 2 "offer").1 =
        some (relayHandler stateRelay 10 2 "offer").2.length ∧
      (∀ e ∈ (relayHandler stateRelay 10 2 "offer").2,
          ∃ tid : SocketId, e = OutEvent.deliver tid "offer" 1)) :=
  ⟨by decide,
   claim_c4_relay_delivery stateRelay 10 2 "offer" ⟨some 1, some 100⟩ 1 100
     (by decide) rfl rfl⟩

/-- Claim C6: on disconnect of an authenticated socket, the durable
`isOnline := false` write (recorded as `setOffline`) happens exactly when
the registry holds no further socket for the identity after the removal —
and then exactly once; in particular when another socket of the identity
remains (a second connection opened before this one closed), no
`setOffline` is emitted and the users collection is untouched. -/
theorem claim_c6_offline_transition (s : ServerState) (sid : SocketId) (now : Time)
    (sock : Sock) (uid : UserId)
    (hs : s.sockets.lookup sid = some sock) (hu : sock.userId = some uid) :
    (OutEvent.setOffline uid ∈ (disconnectHandler s sid now).2 ↔
      getUserSocketIds uid (removeUserSocket uid sid s.userSockets) = []) ∧
    (((disconnectHandler s sid now).2.filter
        fun e => e == OutEvent.setOffline uid).length =
      if getUserSocketIds uid (removeUserSocket uid sid s.userSockets) = [] then 1 else 0) ∧
    (∀ sid2 : SocketId, sid2 ≠ sid → sid2 ∈ getUserSocketIds uid s.userSockets →
      OutEvent.setOffline uid ∉ (disconnectHandler s sid now).2 ∧
        (disconnectHandler s sid now).1.users = s.users) := by
  cases hrid : sock.roomId with
  | none =>
    cases hb : (getUserSocketIds uid (removeUserSocket uid sid s.userSockets)).isEmpty with
    | true =>
      have hnil : getUserSocketIds uid (removeUserSocket uid sid s.userSockets) = [] := by
        rwa [List.isEmpty_iff] at hb
      refine ⟨?_, ?_, ?_⟩
      · simp [disconnectHandler, hs, hu, hrid, hnil]
      · simp [disconnectHandler, hs, hu, hrid, hnil]
      · intro sid2 h1 h2
        have hcontra := getUserSocketIds_remove_ne_nil h1 h2
        rw [hnil] at hcontra
        simp at hcontra
    | false =>
      have hne0 : getUserSocketIds uid (removeUserSocket uid sid s.userSockets) ≠ [] := by
        intro hnil; rw [hnil] at hb; simp at hb
      refine ⟨?_, ?_, ?_⟩
      · simp [disconnectHandler, hs, hu, hrid, hb, hne0]
      · simp [disconnectHandler, hs, hu, hrid, hb, hne0]
      · intro sid2 h1 h2
        constructor
        · simp [disconnectHandler, hs, hu, hrid, hb]
        · simp [disconnectHandler, hs, hu, hrid, hb]
  | some rid =>
    cases hroom : s.rooms.lookup rid with
    | none =>
      cases hb : (getUserSocketIds uid (removeUserSocket uid sid s.userSockets)).isEmpty with
      | true =>
        have hnil : getUserSocketIds uid (removeUserSocket uid sid s.userSockets) = [] := by
          rwa [List.isEmpty_iff] at hb
        refine ⟨?_, ?_, ?_⟩
        · simp [disconnectHandler, hs, hu, hrid, hroom, hnil]
        · simp [disconnectHandler, hs, hu, hrid, hroom, hnil]
        · intro sid2 h1 h2
          have hcontra := getUserSocketIds_remove_ne_nil h1 h2
          rw [hnil] at hcontra
          simp at hcontra
      | false =>
        have hne0 : getUserSocketIds uid (removeUserSocket uid sid s.userSockets) ≠ [] := by
          intro hnil; rw [hnil] at hb; simp at hb
        refine ⟨?_, ?_, ?_⟩
        · simp [disconnectHandler, hs, hu, hrid, hroom, hb, hne0]
        · simp [disconnectHandler, hs, hu, hrid, hroom, hb, hne0]
        · intro sid2 h1 h2
          constructor
          · simp [disconnectHandler, hs, hu, hrid, hroom, hb]
          · simp [disconnectHandler, hs, hu, hrid, hroom, hb]
    | some room =>
      cases hb : (getUserSocketIds uid (removeUserSocket uid sid s.userSockets)).isEmpty with
      | true =>
        have hnil : getUserSocketIds uid (removeUserSocket uid sid s.userSockets) = [] := by
          rwa [List.isEmpty_iff] at hb
        refine ⟨?_, ?_, ?_⟩
        · simp [disconnectHandler, hs, hu, hrid, hroom, hnil]
        · simp [disconnectHandler, hs, hu, hrid, hroom, hnil]
        · intro sid2 h1 h2
          have hcontra := getUserSocketIds_remove_ne_nil h1 h2
          rw [hnil] at hcontra
          simp at hcontra
      | false =>
        have hne0 : getUserSocketIds uid (removeUserSocket uid sid s.userSockets) ≠ [] := by
          intro hnil; rw [hnil] at hb; simp at hb
        refine ⟨?_, ?_, ?_⟩
        · simp [disconnectHandler, hs, hu, hrid, hroom, hb, hne0]
        · simp [disconnectHandler, hs, hu, hrid, hroom, hb, hne0]
        · intro sid2 h1 h2
          constructor
          · simp [disconnectHandler, hs, hu, hrid, hroom, hb]
          · simp [disconnectHandler, hs, hu, hrid, hroom, hb]

theorem claim_c6_offline_transition_witness :
    stateTwoTabs.sockets.lookup 10 = some ⟨some 1, some 100⟩ ∧
    ((OutEvent.setOffline 1 ∈ (disconnectHandler stateTwoTabs 10 50).2 ↔
        getUserSocketIds 1 (removeUserSocket 1 10 stateTwoTabs.userSockets) = []) ∧
      (((disconnectHandler stateTwoTabs 10 50).2.filter
          fun e => e == OutEvent.setOffline 1).length =
        if getUserSocketIds 1 (removeUserSocket 1 10 stateTwoTabs.userSockets) = []
        then 1 else 0) ∧
      (∀ sid2 : SocketId, sid2 ≠ 10 → sid2 ∈ getUserSocketIds 1 stateTwoTabs.userSockets →
        OutEvent.setOffline 1 ∉ (disconnectHandler stateTwoTabs 10 50).2 ∧
          (disconnectHandler stateTwoTabs 10 50).1.users = stateTwoTabs.users)) :=
  ⟨by decide, claim_c6_offline_transition stateTwoTabs 10 50 ⟨some 1, some 100⟩ 1
    (by decide) rfl⟩

/-- Claim C5, counterexample: user 1 holds two live connections (sockets
10 and 11), both joined to room 100 and both registered. Abruptly closing
socket 10 leaves the online flag true, but — against the claim — user 1's
participant record in room 100 ends with `isActive = false`: the
disconnect handler deactivates the record for any socket that held a room
binding, without checking for the identity's other live connections. -/
theorem claim_c5_counterexample :
    (((disconnectHandler stateTwoTabs 10 50).1.rooms.lookup 100).map
        fun r => r.participants.any fun p => p.user == 1 && p.isActive) = some false ∧
    (((disconnectHandler stateTwoTabs 10 50).1.users.lookup 1).map
        fun u => u.isOnline) = some true := by decide

/-- Claim C5, amended: when an identity with a second live registered
connection abruptly closes one connection that was bound to a room, the
users collection is untouched (so the durable online flag stays true),
but the room transitions through `removeParticipant`: the identity's
participant record in that room is deactivated (`isActive = false`
whenever the roster held at most one record for the identity). -/
theorem claim_c5_second_tab (s : ServerState) (sid sid2 : SocketId) (now : Time)
    (sock : Sock) (x : UserId) (rid : RoomId) (room : Room)
    (hs : s.sockets.lookup sid = some sock)
    (hu : sock.userId = some x) (hr : sock.roomId = some rid)
    (hroom : s.rooms.lookup rid = some room)
    (hne : sid2 ≠ sid)
    (hm : sid2 ∈ getUserSocketIds x s.userSockets) :
    (disconnectHandler s sid now).1.users = s.users ∧
    (disconnectHandler s sid now).1.rooms.lookup rid = some (removeParticipant room x now) ∧
    ((room.participants.filter fun p => p.user == x).length ≤ 1 →
      ((removeParticipant room x now).participants.any
        fun p => p.user == x && p.isActive) = false) := by
  have hb := getUserSocketIds_remove_ne_nil hne hm
  refine ⟨?_, ?_, fun h1 => removeParticipant_any_active_false room x now h1⟩
  · simp [disconnectHandler, hs, hu, hr, hroom, hb]
  · simp [disconnectHandler, hs, hu, hr, hroom, hb, alistUpdate_lookup_self]

theorem claim_c5_second_tab_witness :
    stateTwoTabs.sockets.lookup 10 = some ⟨some 1, some 100⟩ ∧
    stateTwoTabs.rooms.lookup 100 = some roomCap2 ∧
    11 ∈ getUserSocketIds 1 stateTwoTabs.userSockets ∧
    ((disconnectHandler stateTwoTabs 10 50).1.users = stateTwoTabs.users ∧
      (disconnectHandler stateTwoTabs 10 50).1.rooms.lookup 100 =
        some (removeParticipant roomCap2 1 50) ∧
      ((roomCap2.participants.filter fun p => p.user == 1).length ≤ 1 →
        ((removeParticipant roomCap2 1 50).participants.any
          fun p => p.user == 1 && p.isActive) = false)) :=
  ⟨by decide, by decide, by decide,
   claim_c5_second_tab stateTwoTabs 10 11 50 ⟨some 1, some 100⟩ 1 100 roomCap2
     (by decide) rfl rfl (by decide) (by decide) (by decide)⟩

/-- Claim C7, counterexample: socket 10 is joined to room 100 with an
active participant record and then issues `join-room` for room 200. The
claim says the leave transition for room 100 runs first, deactivating the
record there; in fact the handler only overwrites the binding: after the
join the binding is room 200 and the record in room 100 is still
`isActive = true` — an orphaned active membership. -/
theorem claim_c7_counterexample :
    (((joinRoom stateTwoRooms 10 200 5).1.sockets.lookup 10).map
        fun sk => sk.roomId) = some (some 200) ∧
    (((joinRoom stateTwoRooms 10 200 5).1.rooms.lookup 100).map
        fun r => r.participants.any fun p => p.user == 1 && p.isActive) = some true := by
  decide

/-- Claim C7, amended: a connection holds at most one room binding
because a successful `join-room` for room B overwrites the binding of a
connection previously bound to room A — but no leave transition for A is
executed: room A's document (its participant records included) is left
completely unchanged, so an active membership in A is orphaned. -/
theorem claim_c7_join_overwrites (s : ServerState) (sid : SocketId)
    (ridA ridB : RoomId) (now : Time) (sock : Sock) (uid : UserId) (roomB : Room)
    (hs : s.sockets.lookup sid = some sock)
    (hu : sock.userId = some uid) (_hrA : sock.roomId = some ridA)
    (hB : s.rooms.lookup ridB = some roomB)
    (hok : canUserJoin roomB uid = none)
    (hne : ridA ≠ ridB) :
    (joinRoom s sid ridB now).1.sockets.lookup sid =
      some { sock with roomId := some ridB } ∧
    (joinRoom s sid ridB now).1.rooms.lookup ridA = s.rooms.lookup ridA := by
  constructor
  · simp [joinRoom, hs, hu, hB, hok, alistUpdate_lookup_self]
  · simp [joinRoom, hs, hu, hB, hok, alistUpdate_lookup_ne _ _ hne]

theorem claim_c7_join_overwrites_witness :
    stateTwoRooms.sockets.lookup 10 = some ⟨some 1, some 100⟩ ∧
    stateTwoRooms.rooms.lookup 200 = some roomOpen ∧
    canUserJoin roomOpen 1 = none ∧
    ((joinRoom stateTwoRooms 10 200 5).1.sockets.lookup 10 =
        some { userId := some 1, roomId := some 200 } ∧
      (joinRoom stateTwoRooms 10 200 5).1.rooms.lookup 100 =
        stateTwoRooms.rooms.lookup 100) :=
  ⟨by decide, by decide, by decide,
   claim_c7_join_overwrites stateTwoRooms 10 100 200 5 ⟨some 1, some 100⟩ 1 roomOpen
     (by decide) rfl rfl (by decide) (by decide) (by decide)⟩

/-- Claim C8, counterexample: room 100 has password `"secret"`
configured (and is not private). The realtime `join-room` eligibility
check passes user 2 with no password at all, and the handler activates a
participant record — the join does not fail with a password-mismatch
error. Even the HTTP join path accepts a wrong password here, because its
gate also requires the room to be private. -/
theorem claim_c8_counterexample :
    canUserJoin roomPw 2 = none ∧
    restJoinRoom roomPw 2 (some "wrong") 3 =
      RestJoinResult.joined (addParticipant roomPw 2 3) ∧
    (((joinRoom statePw 11 100 1).1.rooms.lookup 100).map
        fun r => r.participants.any fun p => p.user == 2 && p.isActive) = some true := by
  decide

/-- Claim C8, amended: the password is never consulted by the realtime
join path — `canUserJoin` is invariant under any change of the stored
password — and only the HTTP join controller rejects a mismatched
password, doing so exactly when the room is private and stores a truthy
(non-null, non-empty) password different from the supplied value; in that
case the request ends at `invalidPassword` and no participant is
added. -/
theorem claim_c8_password_gate :
    (∀ (room : Room) (uid : UserId) (pw : Option String),
      canUserJoin { room with password := pw } uid = canUserJoin room uid) ∧
    (∀ (room : Room) (uid : UserId) (supplied : Option String) (now : Time),
      room.isPrivate = true → strTruthy room.password = true →
      (room.password == supplied) = false →
      restJoinRoom room uid supplied now = RestJoinResult.invalidPassword) := by
  constructor
  · intro room uid pw
    rfl
  · intro room uid supplied now hp ht hm
    simp [restJoinRoom, hp, ht, hm]

theorem claim_c8_password_gate_witness :
    ({ roomPw with isPrivate := true } : Room).isPrivate = true ∧
    strTruthy ({ roomPw with isPrivate := true } : Room).password = true ∧
    (({ roomPw with isPrivate := true } : Room).password == some "wrong") = false ∧
    canUserJoin { roomPw with password := some "other" } 2 = canUserJoin roomPw 2 ∧
    restJoinRoom { roomPw with isPrivate := true } 2 (some "wrong") 3 =
      RestJoinResult.invalidPassword :=
  ⟨by decide, by decide, by decide,
   claim_c8_password_gate.1 roomPw 2 (some "other"),
   claim_c8_password_gate.2 { roomPw with isPrivate := true } 2 (some "wrong") 3
     (by decide) (by decide) (by decide)⟩

/-- Claim C10: a `video-seek` from the room's host whose payload carries
no numeric `time` (modelled as `none` for missing/null/non-number)
persists playback `currentTime = 0` and broadcasts `video-seek` with
time 0 to the rest of the room — the malformed seek resets playback to
the start instead of being rejected. -/
theorem claim_c10_malformed_seek (s : ServerState) (sid : SocketId) (now : Time)
    (sock : Sock) (uid : UserId) (rid : RoomId) (room : Room)
    (hs : s.sockets.lookup sid = some sock)
    (hr : sock.roomId = some rid) (hu : sock.userId = some uid)
    (hroom : s.rooms.lookup rid = some room) (hhost : room.host = uid) :
    videoSeekHandler s sid none now =
      ({ s with rooms := alistUpdate rid (fun _ => updatePlaybackState room { currentTime := some 0 } now) s.rooms },
        [OutEvent.videoSeek rid 0]) ∧
    ((videoSeekHandler s sid none now).1.rooms.lookup rid).map
        (fun r => r.playbackState.currentTime) = some 0 := by
  have h1 : videoSeekHandler s sid none now =
      ({ s with rooms := alistUpdate rid (fun _ => updatePlaybackState room { currentTime := some 0 } now) s.rooms },
        [OutEvent.videoSeek rid 0]) := by
    simp [videoSeekHandler, hs, hr, hu, hroom, hhost]
  refine ⟨h1, ?_⟩
  rw [h1]
  simp [alistUpdate_lookup_self, hroom, updatePlaybackState]

theorem claim_c10_malformed_seek_witness :
    stateSeek.sockets.lookup 10 = some ⟨some 1, some 100⟩ ∧
    (stateSeek.rooms.lookup 100).map (fun r => r.playbackState.currentTime) = some 77 ∧
    ((videoSeekHandler stateSeek 10 none 9).2 = [OutEvent.videoSeek 100 0] ∧
      ((videoSeekHandler stateSeek 10 none 9).1.rooms.lookup 100).map
        (fun r => r.playbackState.currentTime) = some 0) :=
  ⟨by decide, by decide,
   by
    have h := claim_c10_malformed_seek stateSeek 10 9 ⟨some 1, some 100⟩ 1 100
      { roomCap2 with playbackState := { pbZero with currentTime := 77 } }
      (by decide) rfl rfl (by decide) (by decide)
    exact ⟨by rw [h.1], h.2⟩⟩
